import Mathlib

/-
  Shallow embedding of teleport.py (schema-driven JSON validation and
  serialization engine), translated class by class from the source.

  Modelling conventions:
  * Python values (JSON data, native data, `Box` instances and serializer
    classes/instances) are embedded in one universal type `Val`.
    Python 2 `unicode` and `str` are both modelled as `Val.str`
    (JSON-parsed input only ever contains unicode strings); byte strings
    produced by base64 decoding are strings of code points below 256.
  * Serializer classes and instances are embedded as the type `Sch`.
    A `Struct`'s parameter is an ordered association list of field name to
    field schema: in this version of the source a field record built by
    `required(name, schema)` is exactly the dict with the single key
    "schema", so the record is abstracted to its schema.
  * Exceptions: `ValidationError` (with its subclasses distinguished by
    `EKind`) is `Err.verr`; exceptions that no handler in the source
    catches (KeyError, AttributeError, TypeError) are separate
    constructors, since `except ValidationError` blocks let them pass.
  * The interpreter is written with a fuel parameter purely to establish
    termination; every theorem below holds at explicitly aligned fuels,
    and concrete evaluations use an ample fixed fuel.
-/

namespace Teleport

/-- Serializer classes and instances of teleport.py: the atomic types,
the parametrized composites, and the reflexive `Schema` type. -/
inductive Sch where
  | integer
  | float
  | string
  | binary
  | boolean
  | json
  | nothing
  | schema
  | dynamic
  | maybe (p : Sch)
  | array (p : Sch)
  | map (p : Sch)
  | orderedMap (p : Sch)
  | struct (fields : List (String × Sch))

/-- Universal value type: JSON values, native values, `Box` instances and
serializers-as-values (the values of the reflexive `Schema` type). -/
inductive Val where
  | null
  | bool (b : Bool)
  | int (n : Int)
  | float (q : Rat)
  | str (s : String)
  | list (xs : List Val)
  | dict (xs : List (String × Val))
  | box (v : Val)
  | sch (s : Sch)

/-- Which ValidationError class was raised: `ValidationError` itself,
`UnicodeDecodeValidationError`, or `UnknownTypeValidationError`. -/
inductive EKind where
  | validation
  | unicodeDecode
  | unknownType

instance : DecidableEq EKind := fun a b => by
  cases a <;> cases b <;> first
    | exact isTrue rfl
    | exact isFalse (fun h => EKind.noConfusion h)

/-- A raised ValidationError: message, location stack (appended leaf to
root, exactly as `e.stack.append(...)` does), the optional offending
object, and the class of the error. -/
structure VErr where
  message : String
  stack : List Val
  obj : Option Val
  kind : EKind

/-- Result of running a piece of the engine: either a ValidationError
(the only exception the engine ever catches) or an uncaught Python
exception (KeyError / AttributeError / TypeError), plus an out-of-fuel
marker that no theorem ever reaches. -/
inductive Err where
  | verr (e : VErr)
  | keyError (k : String)
  | attributeError (a : String)
  | typeError
  | fuel

/-- Raise `ValidationError(message, obj?)`. -/
def vfail (m : String) (o : Option Val) : Except Err Val :=
  .error (.verr ⟨m, [], o, .validation⟩)

/-- `except ValidationError as e: e.stack.append(loc); raise` —
pushes a location onto a ValidationError and lets every other
exception propagate untouched. -/
def pushLoc (l : Val) : Err → Err
  | .verr e => .verr { e with stack := e.stack ++ [l] }
  | other => other

/-- First-match association-list lookup (Python dict indexing for the
string-keyed dicts the engine manipulates). -/
def lookupV (k : String) : List (String × Val) → Option Val
  | [] => none
  | (k2, v) :: rest => if k2 = k then some v else lookupV k rest

/-- Python `value != None`. -/
def isNull : Val → Bool
  | .null => true
  | _ => false

/-- Python truthiness (`if r:`) for the embedded values. -/
def truthy : Val → Bool
  | .null => false
  | .bool b => b
  | .int n => n != 0
  | .float q => q != 0
  | .str s => !s.isEmpty
  | .list xs => !xs.isEmpty
  | .dict xs => !xs.isEmpty
  | .box _ => true
  | .sch _ => true

/-- The base64 alphabet, for the `Binary` type. -/
def b64Alphabet : List Char :=
  "ABCDEFGHIJKLMNOPQRSTUVWXYZabcdefghijklmnopqrstuvwxyz0123456789+/".toList

def b64IndexOf (c : Char) : Option Nat :=
  b64Alphabet.findIdx? (fun d => d = c)

/-- Decode a list of 6-bit groups into bytes (final partial group per
base64 padding rules). -/
def b64Bytes : List Nat → List Nat
  | a :: b :: c :: d :: rest =>
      (a * 4 + b / 16) :: ((b % 16) * 16 + c / 4) :: ((c % 4) * 64 + d) :: b64Bytes rest
  | [a, b] => [a * 4 + b / 16]
  | [a, b, c] => [a * 4 + b / 16, (b % 16) * 16 + c / 4]
  | _ => []

/-- Strict model of `base64.b64decode`: padded length a multiple of four,
padding only trailing, all other characters from the alphabet; `none`
models the TypeError the source converts into "Invalid base64 encoding". -/
def b64decode (s : String) : Option String :=
  let cs := s.toList
  let core := (cs.reverse.dropWhile (fun c => c = '=')).reverse
  let pad := cs.length - core.length
  if cs.length % 4 != 0 || pad > 2 || core.any (fun c => (b64IndexOf c).isNone) then
    none
  else
    let idxs := core.filterMap b64IndexOf
    if idxs.length % 4 == 1 then none
    else some (String.mk ((b64Bytes idxs).map Char.ofNat))

/-- Encode three bytes (or a final partial group) as base64 characters. -/
def b64EncodeGroups : List Nat → List Char
  | a :: b :: c :: rest =>
      [b64Alphabet.getD (a / 4) '?', b64Alphabet.getD ((a % 4) * 16 + b / 16) '?',
       b64Alphabet.getD ((b % 16) * 4 + c / 64) '?', b64Alphabet.getD (c % 64) '?']
        ++ b64EncodeGroups rest
  | [a, b] =>
      [b64Alphabet.getD (a / 4) '?', b64Alphabet.getD ((a % 4) * 16 + b / 16) '?',
       b64Alphabet.getD ((b % 16) * 4) '?', '=']
  | [a] =>
      [b64Alphabet.getD (a / 4) '?', b64Alphabet.getD ((a % 4) * 16) '?', '=', '=']
  | [] => []

/-- Model of `base64.b64encode` on a Python 2 byte string. -/
def b64encode (s : String) : String :=
  String.mk (b64EncodeGroups (s.toList.map Char.toNat))

/-- A registry entry: `(serializer, param_schema)` where a `None`
param-schema means the serializer class itself is returned and a present
one means the constructor is applied to the deserialized parameter. -/
inductive Entry where
  | basic (s : Sch)
  | withParam (ctor : Val → Sch) (ps : Sch)

def entryParamSchema : Entry → Option Sch
  | .basic _ => none
  | .withParam _ ps => some ps

/-- A type map: name resolution as used by `_get_current_map()[name]`;
`none` models the KeyError that `Schema.from_json` converts into
`UnknownTypeValidationError`. -/
def Reg : Type := String → Option Entry

/-- Parameter of a parametrized serializer, deserialized against `Schema`:
always a serializer value. The default arm is unreachable because the
param schema guarantees the shape. -/
def getSch : Val → Sch
  | .sch s => s
  | _ => .nothing

/-- Extract the "schema" entry of a deserialized field record (the record
dict holds exactly that key in this version of the source); default arms
unreachable for registry-validated parameters. -/
def fieldSchemaOf : Val → Sch
  | .dict r =>
      match lookupV ("schema") r with
      | some (.sch s) => s
      | _ => .nothing
  | _ => .nothing

/-- `Struct(param)`: the constructor stores the ordered mapping of field
name to field record; abstracted to name/schema pairs. -/
def structOfParam : Val → Sch
  | .dict entries => .struct (entries.map (fun kv => (kv.1, fieldSchemaOf kv.2)))
  | _ => .struct []

/-- The parameter schema BUILTIN_TYPES declares for "Struct":
`OrderedMap(Struct([required(u"schema", Schema)]))`. -/
def structFieldParamSchema : Sch :=
  .orderedMap (.struct [("schema", .schema)])

/-- The BUILTIN_TYPES table of teleport.py. -/
def BUILTIN_TYPES : Reg := fun t =>
  match t with
  | "Maybe" => some (.withParam (fun v => .maybe (getSch v)) .schema)
  | "Nothing" => some (.basic .nothing)
  | "Dynamic" => some (.basic .dynamic)
  | "Integer" => some (.basic .integer)
  | "Float" => some (.basic .float)
  | "String" => some (.basic .string)
  | "Binary" => some (.basic .binary)
  | "Boolean" => some (.basic .boolean)
  | "Schema" => some (.basic .schema)
  | "JSON" => some (.basic .json)
  | "Array" => some (.withParam (fun v => .array (getSch v)) .schema)
  | "Map" => some (.withParam (fun v => .map (getSch v)) .schema)
  | "OrderedMap" => some (.withParam (fun v => .orderedMap (getSch v)) .schema)
  | "Struct" => some (.withParam structOfParam structFieldParamSchema)
  | _ => none

/-- The type name `Schema.to_json` derives from the serializer's class. -/
def type_name : Sch → String
  | .integer => "Integer"
  | .float => "Float"
  | .string => "String"
  | .binary => "Binary"
  | .boolean => "Boolean"
  | .json => "JSON"
  | .nothing => "Nothing"
  | .schema => "Schema"
  | .dynamic => "Dynamic"
  | .maybe _ => "Maybe"
  | .array _ => "Array"
  | .map _ => "Map"
  | .orderedMap _ => "OrderedMap"
  | .struct _ => "Struct"

/-- `datum.param` of a parametrized serializer instance, as a value to be
serialized against its declared param schema.  For `Struct` this is the
stored ordered mapping of name to field record. -/
def paramVal : Sch → Val
  | .maybe p => .sch p
  | .array p => .sch p
  | .map p => .sch p
  | .orderedMap p => .sch p
  | .struct fs => .dict (fs.map (fun kv => (kv.1, Val.dict [("schema", Val.sch kv.2)])))
  | _ => .null

/-- The internal schema `OrderedMap.__init__` builds:
`Struct([required(u"map", Map(param)), required(u"order", Array(String))])`. -/
def omSchema (p : Sch) : Sch :=
  .struct [("map", .map p), ("order", .array .string)]

/-- The class attribute `Dynamic.schema`:
`Struct([required("schema", Schema), required("datum", Maybe(JSON))])`. -/
def dynSchema : Sch :=
  .struct [("schema", .schema), ("datum", .maybe .json)]

/-- Extract an all-strings list (used to model Python set comparison of
`order` against the string keys of `map`: a non-string member makes the
sets unequal). -/
def strList? : List Val → Option (List String)
  | [] => some []
  | .str s :: rest => (strList? rest).map (fun t => s :: t)
  | _ => none

/-- The reassembly loop of `OrderedMap.inflate`: iterate `order`, look
each key up in `map` (a missing key would be an uncaught KeyError). -/
def omBuild : List String → List (String × Val) → Except Err (List (String × Val))
  | [], _ => .ok []
  | k :: rest, mp =>
      match lookupV k mp with
      | none => .error (.keyError k)
      | some v =>
          match omBuild rest mp with
          | .error e => .error e
          | .ok t => .ok ((k, v) :: t)

/-- `OrderedMap.inflate`: `order = datum["order"]; keys = datum["map"].keys();`
`if len(order) != len(keys) or set(order) != set(keys): raise`
`ValidationError("Invalid OrderedMap", datum)`, then reassemble in order. -/
def inflateOM (d : List (String × Val)) : Except Err Val :=
  match lookupV ("order") d with
  | none => .error (.keyError ("order"))
  | some ov =>
      match lookupV ("map") d with
      | none => .error (.keyError ("map"))
      | some mv =>
          match ov, mv with
          | .list order, .dict mp =>
              match strList? order with
              | some os =>
                  if os.length != mp.length
                      || !((os.all (fun k => (mp.map Prod.fst).contains k))
                            && ((mp.map Prod.fst).all (fun k => os.contains k))) then
                    .error (.verr ⟨"Invalid OrderedMap", [], some (.dict d), .validation⟩)
                  else
                    (omBuild os mp).map Val.dict
              | none =>
                  -- a non-string member of `order` cannot occur in the string
                  -- key set of `map`, so the Python set comparison fails
                  .error (.verr ⟨"Invalid OrderedMap", [], some (.dict d), .validation⟩)
          | _, _ => .error .typeError

/-- Plumbing for `ParametrizedWrapper.from_box` of OrderedMap: feed the
result of the internal struct validation into `inflate`. -/
def inflateOMResult : Except Err Val → Except Err Val
  | .ok (.dict d) => inflateOM d
  | .ok _ => .error .typeError
  | .error e => .error e

mutual

/-- Dispatch of `from_box(box)` on the serializer: `Basic.from_box`
checks for a missing box, `JSON`/`Nothing`/`Maybe` override it,
`Parametrized.from_box` dereferences `box.datum` (an AttributeError when
the box is absent), and the wrappers run their internal schema first. -/
def from_box (reg : Reg) : Nat → Sch → Option Val → Except Err Val
  | 0, _, _ => .error .fuel
  | n + 1, s, b =>
    match s with
    | .integer | .float | .string | .binary | .boolean | .schema =>
        match b with
        | none => vfail ("Non-empty value expected") none
        | some v => from_json reg n s v
    | .json =>
        -- JSON.from_box returns its argument unchanged (the Box, or None)
        match b with
        | none => .ok .null
        | some v => .ok (.box v)
    | .nothing =>
        match b with
        | none => .ok .null
        | some v => vfail ("Nothing expected") (some (.box v))
    | .maybe p =>
        match b with
        | none => .ok .null
        | some v => from_box reg n p (some v)
    | .array _ | .map _ | .struct _ =>
        match b with
        | none => .error (.attributeError ("datum"))
        | some v => from_json reg n s v
    | .orderedMap p =>
        inflateOMResult (from_box reg n (omSchema p) b)
    | .dynamic =>
        match from_box reg n dynSchema b with
        | .ok (.dict d) => dyn_inflate reg n d
        | .ok _ => .error .typeError
        | .error e => .error e

/-- `Dynamic.inflate`: re-deserialize the boxed datum against the parsed
schema. -/
def dyn_inflate (reg : Reg) : Nat → List (String × Val) → Except Err Val
  | 0, _ => .error .fuel
  | n + 1, d =>
    match lookupV ("schema") d with
    | none => .error (.keyError ("schema"))
    | some sv =>
        match sv with
        | .sch s =>
            -- datum.get("datum", None): the stored value is a Box when the
            -- field survived validation, absent otherwise
            let db : Option Val :=
              match lookupV ("datum") d with
              | some (.box v) => some v
              | _ => none
            match from_box reg n s db with
            | .error e => .error e
            | .ok r => .ok (.dict [("schema", .sch s), ("datum", r)])
        | _ => .error (.attributeError ("from_box"))

/-- `from_json` of each serializer, matching the source class by class. -/
def from_json (reg : Reg) : Nat → Sch → Val → Except Err Val
  | 0, _, _ => .error .fuel
  | n + 1, s, v =>
    match s with
    | .integer =>
        match v with
        | .int i => .ok (.int i)
        | .float q => if q.den == 1 then .ok (.int q.num) else vfail ("Invalid Integer") (some v)
        | _ => vfail ("Invalid Integer") (some v)
    | .float =>
        match v with
        | .float q => .ok (.float q)
        | .int i => .ok (.float (i : Rat))
        | _ => vfail ("Invalid Float") (some v)
    | .string =>
        match v with
        | .str t => .ok (.str t)
        | _ => vfail ("Invalid String") (some v)
    | .binary =>
        match v with
        | .str t =>
            match b64decode t with
            | some bs => .ok (.str bs)
            | none => vfail ("Invalid base64 encoding") (some v)
        | _ => vfail ("Invalid Binary data") (some v)
    | .boolean =>
        match v with
        | .bool b => .ok (.bool b)
        | _ => vfail ("Invalid Boolean") (some v)
    | .json => .ok (.box v)
    | .schema => schema_from_json reg n v
    | .nothing => .ok v
    | .array p =>
        match v with
        | .list xs =>
            match array_items reg n p xs 0 with
            | .ok ys => .ok (.list ys)
            | .error e => .error e
        | _ => vfail ("Invalid Array") (some v)
    | .map p =>
        match v with
        | .dict entries =>
            match map_items reg n p entries with
            | .ok es => .ok (.dict es)
            | .error e => .error e
        | _ => vfail ("Invalid Map") (some v)
    | .struct fs =>
        match v with
        | .dict entries =>
            let boxes := entries.filter (fun kv => !isNull kv.2)
            let extra := boxes.filter (fun kv => !(fs.map Prod.fst).contains kv.1)
            if !extra.isEmpty then
              vfail ("Unexpected fields") (some (.list (extra.map (fun kv => Val.str kv.1))))
            else
              match struct_fields reg n fs boxes with
              | .ok ret => .ok (.dict ret)
              | .error e => .error e
        | _ => vfail ("Invalid Struct") (some v)
    -- Maybe, OrderedMap and Dynamic define no from_json method: reaching
    -- it would be an AttributeError; their from_box never routes here
    | .maybe _ => .error (.attributeError ("from_json"))
    | .orderedMap _ => .error (.attributeError ("from_json"))
    | .dynamic => .error (.attributeError ("from_json"))

/-- The element loop of `Array.from_json`: first failure wins, with the
zero-based index appended to the location stack. -/
def array_items (reg : Reg) : Nat → Sch → List Val → Int → Except Err (List Val)
  | _, _, [], _ => .ok []
  | 0, _, _ :: _, _ => .error .fuel
  | n + 1, p, x :: rest, i =>
      match from_box reg n p (some x) with
      | .error e => .error (pushLoc (.int i) e)
      | .ok y =>
          match array_items reg n p rest (i + 1) with
          | .error e => .error e
          | .ok ys => .ok (y :: ys)

/-- The entry loop of `Map.from_json` (keys of JSON objects are unicode,
so the `type(key) != unicode` guard never fires for embedded input). -/
def map_items (reg : Reg) : Nat → Sch → List (String × Val) → Except Err (List (String × Val))
  | _, _, [] => .ok []
  | 0, _, _ :: _ => .error .fuel
  | n + 1, p, (k, x) :: rest =>
      match from_box reg n p (some x) with
      | .error e => .error (pushLoc (.str k) e)
      | .ok y =>
          match map_items reg n p rest with
          | .error e => .error e
          | .ok ys => .ok ((k, y) :: ys)

/-- The field loop of `Struct.from_json`: each field's box is fetched
with `boxes.get(field, None)`, deserialized, kept only when truthy
(`if r:`), and a failing field gets its name appended to the stack. -/
def struct_fields (reg : Reg) : Nat → List (String × Sch) → List (String × Val) →
    Except Err (List (String × Val))
  | _, [], _ => .ok []
  | 0, _ :: _, _ => .error .fuel
  | n + 1, (fname, fsch) :: rest, boxes =>
      match from_box reg n fsch (lookupV fname boxes) with
      | .error e => .error (pushLoc (.str fname) e)
      | .ok r =>
          match struct_fields reg n rest boxes with
          | .error e => .error e
          | .ok ret => .ok (if truthy r then (fname, r) :: ret else ret)

/-- `Schema.from_json`: peek at "type", resolve it in the current type
map (a miss raises `UnknownTypeValidationError`), then either return the
serializer class or deserialize "param" (`datum["param"]` is an uncaught
KeyError when absent) and apply the constructor. -/
def schema_from_json (reg : Reg) : Nat → Val → Except Err Val
  | 0, _ => .error .fuel
  | n + 1, v =>
    match v with
    | .dict d =>
        match lookupV ("type") d with
        | none => vfail ("Invalid Schema") (some v)
        | some tv =>
            match tv with
            | .str t =>
                match reg t with
                | none => .error (.verr ⟨"Unknown type", [], some (.str t), .unknownType⟩)
                | some (.basic s) => .ok (.sch s)
                | some (.withParam ctor ps) =>
                    match lookupV ("param") d with
                    | none => .error (.keyError ("param"))
                    | some pv =>
                        match from_box reg n ps (some pv) with
                        | .error e => .error e
                        | .ok p => .ok (.sch (ctor p))
            -- an unhashable "type" value is an uncaught TypeError; any other
            -- hashable value misses the table and is an unknown type
            | .list _ => .error .typeError
            | .dict _ => .error .typeError
            | _ => .error (.verr ⟨"Unknown type", [], some tv, .unknownType⟩)
    | _ => vfail ("Invalid Schema") (some v)

end

mutual

/-- Dispatch of `to_box(datum)`: `Basic.to_box` boxes `to_json`, the
overrides of `JSON`/`Nothing`/`Maybe` pass through, and the wrappers
deflate before running their internal schema. -/
def to_box (reg : Reg) : Nat → Sch → Val → Except Err Val
  | 0, _, _ => .error .fuel
  | n + 1, s, v =>
    match s with
    | .integer | .float | .string | .binary | .boolean | .schema
    | .array _ | .map _ | .struct _ =>
        match to_json reg n s v with
        | .ok w => .ok (.box w)
        | .error e => .error e
    | .json => .ok v
    | .nothing => .ok .null
    | .maybe p =>
        match v with
        | .null => .ok .null
        | _ => to_box reg n p v
    | .orderedMap p =>
        -- OrderedMap.deflate: {"map": dict(datum.items()), "order": datum.keys()}
        match v with
        | .dict entries =>
            to_box reg n (omSchema p)
              (.dict [("map", .dict entries),
                      ("order", .list (entries.map (fun kv => Val.str kv.1)))])
        | _ => .error (.attributeError ("items"))
    | .dynamic =>
        match v with
        | .dict d =>
            match lookupV ("schema") d with
            | none => .error (.keyError ("schema"))
            | some (.sch s) =>
                match lookupV ("datum") d with
                | none => .error (.keyError ("datum"))
                | some dv =>
                    match to_box reg n s dv with
                    | .error e => .error e
                    | .ok r =>
                        to_box reg n dynSchema
                          (.dict [("schema", .sch s), ("datum", r)])
            | some _ => .error (.attributeError ("to_box"))
        | _ => .error .typeError

/-- `to_json` of each serializer. -/
def to_json (reg : Reg) : Nat → Sch → Val → Except Err Val
  | 0, _, _ => .error .fuel
  | n + 1, s, v =>
    match s with
    | .integer | .float | .string | .boolean | .nothing => .ok v
    | .binary =>
        match v with
        | .str bs => .ok (.str (b64encode bs))
        | _ => .error .typeError
    | .json =>
        -- JSON.to_json: datum.datum
        match v with
        | .box x => .ok x
        | _ => .error (.attributeError ("datum"))
    | .schema => schema_to_json reg n v
    | .array p =>
        match v with
        | .list xs =>
            match to_array_items reg n p xs with
            | .ok ys => .ok (.list ys)
            | .error e => .error e
        | _ => .error .typeError
    | .map p =>
        match v with
        | .dict entries =>
            match to_map_items reg n p entries with
            | .ok es => .ok (.dict es)
            | .error e => .error e
        | _ => .error (.attributeError ("items"))
    | .struct fs =>
        match v with
        | .dict entries =>
            match to_struct_fields reg n fs entries with
            | .ok ret => .ok (.dict ret)
            | .error e => .error e
        | _ => .error (.attributeError ("keys"))
    | .maybe _ => .error (.attributeError ("to_json"))
    | .orderedMap _ => .error (.attributeError ("to_json"))
    | .dynamic => .error (.attributeError ("to_json"))

def to_array_items (reg : Reg) : Nat → Sch → List Val → Except Err (List Val)
  | _, _, [] => .ok []
  | 0, _, _ :: _ => .error .fuel
  | n + 1, p, x :: rest =>
      match to_json reg n p x with
      | .error e => .error e
      | .ok y =>
          match to_array_items reg n p rest with
          | .error e => .error e
          | .ok ys => .ok (y :: ys)

def to_map_items (reg : Reg) : Nat → Sch → List (String × Val) →
    Except Err (List (String × Val))
  | _, _, [] => .ok []
  | 0, _, _ :: _ => .error .fuel
  | n + 1, p, (k, x) :: rest =>
      match to_json reg n p x with
      | .error e => .error e
      | .ok y =>
          match to_map_items reg n p rest with
          | .error e => .error e
          | .ok ys => .ok ((k, y) :: ys)

/-- The field loop of `Struct.to_json`: emit a field only when present
and not None (`datum[name] != None`), and only when the serialized box is
truthy (`if b: ret[name] = b.datum`). -/
def to_struct_fields (reg : Reg) : Nat → List (String × Sch) → List (String × Val) →
    Except Err (List (String × Val))
  | _, [], _ => .ok []
  | 0, _ :: _, _ => .error .fuel
  | n + 1, (fname, fsch) :: rest, entries =>
      match lookupV fname entries with
      | none =>
          to_struct_fields reg n rest entries
      | some dv =>
          if isNull dv then
            to_struct_fields reg n rest entries
          else
            match to_box reg n fsch dv with
            | .error e => .error e
            | .ok b =>
                if truthy b then
                  match b with
                  | .box inner =>
                      match to_struct_fields reg n rest entries with
                      | .error e => .error e
                      | .ok ret => .ok ((fname, inner) :: ret)
                  | _ => .error (.attributeError ("datum"))
                else
                  to_struct_fields reg n rest entries

/-- `Schema.to_json`: derive the type name from the class, look up the
param schema in the current type map, and emit `{"type": name}` or
`{"type": name, "param": serialized}`. -/
def schema_to_json (reg : Reg) : Nat → Val → Except Err Val
  | 0, _ => .error .fuel
  | n + 1, v =>
    match v with
    | .sch s =>
        let tn := type_name s
        match reg tn with
        | none => .error (.keyError tn)
        | some (.basic _) => .ok (.dict [("type", .str tn)])
        | some (.withParam _ ps) =>
            match to_box reg n ps (paramVal s) with
            | .error e => .error e
            | .ok (.box w) => .ok (.dict [("type", .str tn), ("param", w)])
            | .ok _ => .error (.attributeError ("datum"))
    | _ => .error (.attributeError ("class"))

end

/-- Modelled from the spec: the module-level engine facade
`from_json(schema, datum)` (used throughout the repository's tests but
absent from src), which boxes the datum and calls the serializer's
`from_box`. -/
def facade_from_json (n : Nat) (s : Sch) (v : Val) : Except Err Val :=
  from_box BUILTIN_TYPES n s (some v)

/-- Modelled from the spec: the module-level engine facade
`to_json(schema, datum)` (absent from src), which calls the serializer's
`to_box` and unwraps `.datum`. -/
def facade_to_json (n : Nat) (s : Sch) (v : Val) : Except Err Val :=
  match to_box BUILTIN_TYPES n s v with
  | .ok (.box w) => .ok w
  | .ok _ => .error (.attributeError ("datum"))
  | .error e => .error e

/-- Python `repr` for the values the error renderer prints (string
escaping and object addresses are not modelled; `u` prefix per Python 2). -/
def reprV : Nat → Val → String
  | 0, _ => "..."
  | _ + 1, .null => "None"
  | _ + 1, .bool true => "True"
  | _ + 1, .bool false => "False"
  | _ + 1, .int i => toString i
  | _ + 1, .float q => toString q.num ++ (if q.den == 1 then ".0" else "...")
  | _ + 1, .str s => "u\x27" ++ s ++ "\x27"
  | n + 1, .list xs => "[" ++ String.intercalate (", ") (xs.map (reprV n)) ++ "]"
  | n + 1, .dict kvs =>
      "\x7b" ++
        String.intercalate (", ")
          (kvs.map (fun kv => "u\x27" ++ kv.1 ++ "\x27: " ++ reprV n kv.2))
        ++ "\x7d"
  | _ + 1, .box _ => "<Box>"
  | _ + 1, .sch _ => "<serializer>"

/-- The accumulation loop of `ValidationError.__str__`:
`for item in locs: ret += '[' + repr(item) + ']'`, in list order. -/
def locString (n : Nat) : List Val → String
  | [] => ""
  | l :: rest => "[" ++ reprV n l ++ "]" ++ locString n rest

/-- `ValidationError.__str__`: locations printed closest-to-root first
(the stack reversed), then the message, then the offending object. -/
def errStr (n : Nat) (e : VErr) : String :=
  (if e.stack.isEmpty then "" else
    "Item at " ++ locString n e.stack.reverse ++ " ")
  ++ e.message
  ++ (match e.obj with
      | none => ""
      | some o => ": " ++ reprV n o)

/-- `TypeMap.__enter__`: push the map on the context stack. -/
def ctx_push (tm : Reg) (st : List Reg) : List Reg := tm :: st

/-- `TypeMap.__exit__`: pop the context stack (run on every exit path of
the `with` block, error or not). -/
def ctx_pop (st : List Reg) : List Reg := st.tail

/-- `_get_current_map`: the top of the context stack, or the global map. -/
def get_current_map (st : List Reg) : Reg := st.headD BUILTIN_TYPES

/-- A `with TypeMap():` block: enter, run the body on the new stack, and
pop on the way out whether the body returned or raised. -/
def with_type_map {E A : Type} (tm : Reg) (body : List Reg → Except E A × List Reg)
    (st : List Reg) : Except E A × List Reg :=
  let st1 := ctx_push tm st
  let res := body st1
  (res.1, ctx_pop res.2)

end Teleport

namespace Teleport

/-! Helper lemmas (shared by the claim theorems below). -/

theorem strListQ_map (os : List String) : strList? (os.map Val.str) = some os := by
  induction os with
  | nil => rfl
  | cons a rest ih => simp [strList?, ih]

theorem omBuild_shape (os : List String) (mp : List (String × Val)) :
    (∃ t, omBuild os mp = .ok t) ∨ (∃ k, omBuild os mp = .error (.keyError k)) := by
  induction os with
  | nil => exact .inl ⟨[], rfl⟩
  | cons k rest ih =>
      cases hl : lookupV k mp with
      | none => exact .inr ⟨k, by simp [omBuild, hl]⟩
      | some v =>
          rcases ih with ⟨t, ht⟩ | ⟨k2, hk⟩
          · exact .inl ⟨(k, v) :: t, by simp [omBuild, hl, ht]⟩
          · exact .inr ⟨k2, by simp [omBuild, hl, hk]⟩

theorem perm_of_len_subs {α : Type} (os keys : List α) (h : keys.Nodup)
    (hlen : os.length = keys.length) (h2 : ∀ x ∈ keys, x ∈ os) :
    os.Perm keys :=
  (List.Subperm.perm_of_length_le (List.Nodup.subperm h h2) (le_of_eq hlen)).symm

/-- The boolean guard of `OrderedMap.inflate`
(`len(order) != len(keys) or set(order) != set(keys)`) passes exactly when
`order` is a permutation of the keys of `map` (a dict's keys are distinct). -/
theorem omCheck_false_iff (os : List String) (mp : List (String × Val))
    (h : (mp.map Prod.fst).Nodup) :
    ((os.length != mp.length)
        || !((os.all (fun k => (mp.map Prod.fst).contains k))
              && ((mp.map Prod.fst).all (fun k => os.contains k)))) = false
      ↔ os.Perm (mp.map Prod.fst) := by
  simp only [Bool.or_eq_false_iff, bne_eq_false_iff_eq, Bool.not_eq_false',
    Bool.and_eq_true, List.all_eq_true]
  constructor
  · rintro ⟨hlen, h1, h2⟩
    refine perm_of_len_subs os (mp.map Prod.fst) h (by simpa using hlen) ?_
    intro x hx
    simpa using h2 x hx
  · intro hp
    refine ⟨by simpa using hp.length_eq, ⟨?_, ?_⟩⟩
    · intro x hx
      simpa using hp.mem_iff.mp hx
    · intro x hx
      simpa using hp.mem_iff.mpr hx

theorem filter_skips_null (l1 l2 : List (String × Val)) (k : String) :
    (l1 ++ (k, Val.null) :: l2).filter (fun kv => !isNull kv.2)
      = (l1 ++ l2).filter (fun kv => !isNull kv.2) := by
  simp [List.filter_append, List.filter_cons, isNull]

theorem struct_null_entry_dropped (reg : Reg) (n : Nat) (fs : List (String × Sch))
    (l1 l2 : List (String × Val)) (k : String) :
    from_json reg n (.struct fs) (.dict (l1 ++ (k, .null) :: l2))
      = from_json reg n (.struct fs) (.dict (l1 ++ l2)) := by
  cases n with
  | zero => rfl
  | succ n => simp only [from_json, filter_skips_null]

theorem struct_falsy_field_dropped (reg : Reg) (m : Nat) (k : String) (s : Sch) (v r : Val)
    (hv : isNull v = false) (h1 : from_box reg m s (some v) = .ok r)
    (h2 : truthy r = false) :
    from_json reg (m + 2) (.struct [(k, s)]) (.dict [(k, v)]) = .ok (.dict []) := by
  simp only [from_json, struct_fields]
  simp [lookupV, hv, h1, h2]

/-! The claims. -/

/-- Claim C1. The claim says `Struct.from_json` fails with a
"Missing fields" error listing the full set of missing required names,
checked (with the unexpected-fields check) before any field schema runs.
The code has no such check: a missing field surfaces one at a time, from
inside the per-field loop, as `Basic.from_box`'s "Non-empty value
expected" error tagged with that single field's name — both for
`{"bar": 2}` against a struct with fields foo/bar, and for `{}` where
both fields are absent yet only `foo` is reported. -/
theorem claim_C1_missing_fields :
    from_json BUILTIN_TYPES 9 (.struct [("foo", .boolean), ("bar", .integer)])
        (.dict [("bar", .int 2)])
      = .error (.verr ⟨"Non-empty value expected", [.str "foo"], none, .validation⟩)
    ∧ from_json BUILTIN_TYPES 9 (.struct [("foo", .boolean), ("bar", .integer)])
        (.dict [])
      = .error (.verr ⟨"Non-empty value expected", [.str "foo"], none, .validation⟩) :=
  ⟨rfl, rfl⟩

/-- Claim C2. The claim says `from_json(s, to_json(s, v)) == v` for every
valid native value, in particular Struct values with falsy fields. For
`v = {"foo": False}` against `Struct([("foo", Boolean)])` the code
serializes to `{"foo": false}` but deserializing that yields `{}` (the
`if r:` truthiness test in `Struct.from_json` drops the field), so the
round trip is not the identity. -/
theorem claim_C2_roundtrip_falsy :
    facade_to_json 9 (.struct [("foo", .boolean)]) (.dict [("foo", .bool false)])
      = .ok (.dict [("foo", .bool false)])
    ∧ facade_from_json 9 (.struct [("foo", .boolean)]) (.dict [("foo", .bool false)])
      = .ok (.dict [])
    ∧ Val.dict [] ≠ Val.dict [("foo", .bool false)] := by
  refine ⟨rfl, rfl, ?_⟩
  intro h
  exact List.noConfusion (Val.dict.inj h)

/-- Claim C3. The claim says `from_json(Schema, to_json(Schema, s)) == s`
for every schema value. For `s = Struct([])` the serialized form is
`{"type": "Struct", "param": {"map": {}, "order": []}}`, and deserializing
it crashes with an uncaught `KeyError("order")`: the struct pass drops the
falsy empty "map" and "order" entries, so `OrderedMap.inflate` finds
neither. A nested non-empty example does round-trip. -/
theorem claim_C3_schema_roundtrip :
    (facade_to_json 20 .schema (.sch (.struct []))).bind (facade_from_json 20 .schema)
      = .error (.keyError "order")
    ∧ (facade_to_json 20 .schema
          (.sch (.array (.struct [("foo", .boolean), ("bar", .integer)])))).bind
        (facade_from_json 20 .schema)
      = .ok (.sch (.array (.struct [("foo", .boolean), ("bar", .integer)]))) :=
  ⟨rfl, rfl⟩

/-- Claim C4. The claim says `Schema.from_json` validates the presence of
"param" against the resolved type, with distinct "Unexpected param" and
"Missing param" ValidationErrors. The code does neither: a parameterless
type given a "param" succeeds silently (`{"type": "Integer", "param": …}`
returns the Integer serializer), and a parameterized type without "param"
crashes with an uncaught `KeyError("param")` from `datum["param"]`. -/
theorem claim_C4_param_presence :
    schema_from_json BUILTIN_TYPES 9
        (.dict [("type", .str "Integer"), ("param", .dict [("type", .str "Boolean")])])
      = .ok (.sch .integer)
    ∧ schema_from_json BUILTIN_TYPES 9 (.dict [("type", .str "Struct")])
      = .error (.keyError "param") :=
  ⟨rfl, rfl⟩

/-- Claim C5. The claim says BUILTIN_TYPES gives Struct the parameter
schema `OrderedMap(Struct([required("schema", Schema), required("required",
Boolean), optional("doc", String)]))`. The registry actually declares only
`OrderedMap(Struct([required(u"schema", Schema)]))`, so a field record
carrying the "required" and "doc" entries the claim (and the repository's
tests) expect is rejected with "Unexpected fields". -/
theorem claim_C5_struct_param_schema :
    (BUILTIN_TYPES "Struct").map entryParamSchema = some (some structFieldParamSchema)
    ∧ structFieldParamSchema = .orderedMap (.struct [("schema", .schema)])
    ∧ from_box BUILTIN_TYPES 20 structFieldParamSchema
        (some (.dict [("map", .dict [("foo",
                .dict [("required", .bool true),
                       ("schema", .dict [("type", .str "Boolean")]),
                       ("doc", .str "d")])]),
              ("order", .list [.str "foo"])]))
      = .error (.verr ⟨"Unexpected fields", [.str "foo", .str "map"],
          some (.list [.str "required", .str "doc"]), .validation⟩) :=
  ⟨rfl, rfl, rfl⟩

/-- Claim C6. For every type map and every name it does not resolve,
`Schema.from_json` of `{"type": name}` fails with
`UnknownTypeValidationError` ("Unknown type", carrying the name), a kind
distinct from the plain ValidationError used for type mismatches. -/
theorem claim_C6_unknown_type (reg : Reg) (t : String) (n : Nat) (h : reg t = none) :
    schema_from_json reg (n + 1) (.dict [("type", .str t)])
      = .error (.verr ⟨"Unknown type", [], some (.str t), .unknownType⟩)
    ∧ EKind.unknownType ≠ EKind.validation := by
  constructor
  · simp [schema_from_json, lookupV, h]
  · intro hk
    exact EKind.noConfusion hk

/-- Witness for claim C6 at the unknown name "Bogus" in the built-in map. -/
theorem claim_C6_unknown_type_witness :
    schema_from_json BUILTIN_TYPES (3 + 1) (.dict [("type", .str "Bogus")])
      = .error (.verr ⟨"Unknown type", [], some (.str "Bogus"), .unknownType⟩)
    ∧ EKind.unknownType ≠ EKind.validation :=
  claim_C6_unknown_type BUILTIN_TYPES "Bogus" 3 (by rfl)

/-- Claim C7, counterexample. The wire value
`{"map": {}, "order": []}` passes the internal Struct-of-(Map(item),
Array(String)) validation (yielding `{}` — the falsy entries are dropped),
and `[]` is a permutation of the empty key set, so the claim requires the
empty ordered mapping; `OrderedMap.from_box` instead crashes with an
uncaught `KeyError("order")`. -/
theorem claim_C7_counterexample :
    from_json BUILTIN_TYPES 8 (omSchema .boolean) (.dict [("map", .dict []), ("order", .list [])])
      = .ok (.dict [])
    ∧ from_box BUILTIN_TYPES 9 (.orderedMap .boolean)
        (some (.dict [("map", .dict []), ("order", .list [])]))
      = .error (.keyError "order") :=
  ⟨rfl, rfl⟩

/-- Claim C7, as amended. For wire values whose validated composite still
holds both the "map" and "order" entries, `OrderedMap` deserialization
fails with "Invalid OrderedMap" carrying the whole validated composite iff
"order" is not a permutation of the keys of "map"; otherwise it returns
the order-preserving mapping built by iterating "order" and looking each
key up in "map". -/
theorem claim_C7_orderedmap (reg : Reg) (n : Nat) (item : Sch) (w : Val)
    (d : List (String × Val)) (os : List String) (mp : List (String × Val))
    (hd : from_box reg n (omSchema item) (some w) = .ok (.dict d))
    (ho : lookupV ("order") d = some (.list (os.map Val.str)))
    (hm : lookupV ("map") d = some (.dict mp))
    (hnd : (mp.map Prod.fst).Nodup) :
    ((from_box reg (n + 1) (.orderedMap item) (some w)
        = .error (.verr ⟨"Invalid OrderedMap", [], some (.dict d), .validation⟩))
      ↔ ¬ os.Perm (mp.map Prod.fst))
    ∧ (os.Perm (mp.map Prod.fst) →
        from_box reg (n + 1) (.orderedMap item) (some w)
          = (omBuild os mp).map Val.dict) := by
  have hstep : from_box reg (n + 1) (.orderedMap item) (some w)
      = inflateOMResult (from_box reg n (omSchema item) (some w)) := rfl
  rw [hstep, hd]
  show (inflateOM d = _ ↔ _) ∧ (_ → inflateOM d = _)
  unfold inflateOM
  rw [ho, hm]
  simp only [strListQ_map]
  by_cases hp : os.Perm (mp.map Prod.fst)
  · rw [(omCheck_false_iff os mp hnd).mpr hp]
    simp only [if_neg (by simp : ¬ (false = true))]
    constructor
    · constructor
      · intro hcontr
        rcases omBuild_shape os mp with ⟨t, ht⟩ | ⟨k, hk⟩
        · rw [ht] at hcontr
          simp [Except.map] at hcontr
        · rw [hk] at hcontr
          simp [Except.map] at hcontr
      · intro hnp
        exact absurd hp hnp
    · intro _
      trivial
  · have hc : ((os.length != mp.length)
        || !((os.all (fun k => (mp.map Prod.fst).contains k))
              && ((mp.map Prod.fst).all (fun k => os.contains k)))) = true := by
      rcases Bool.eq_false_or_eq_true ((os.length != mp.length)
        || !((os.all (fun k => (mp.map Prod.fst).contains k))
              && ((mp.map Prod.fst).all (fun k => os.contains k)))) with ht | hf
      · exact ht
      · exact absurd ((omCheck_false_iff os mp hnd).mp hf) hp
    rw [hc]
    simp only [if_pos rfl]
    exact ⟨⟨fun _ => hp, fun _ => rfl⟩, fun hpp => absurd hpp hp⟩

/-- Witness for claim C7 at the spec's OrderedMap example value. -/
theorem claim_C7_orderedmap_witness :
    ((from_box BUILTIN_TYPES (12 + 1) (.orderedMap .boolean)
        (some (.dict [("map", .dict [("cool", .bool true), ("hip", .bool false),
                                     ("groovy", .bool true)]),
                      ("order", .list [.str "cool", .str "groovy", .str "hip"])]))
        = .error (.verr ⟨"Invalid OrderedMap", [],
            some (.dict [("map", .dict [("cool", .bool true), ("hip", .bool false),
                                        ("groovy", .bool true)]),
                         ("order", .list [.str "cool", .str "groovy", .str "hip"])]),
            .validation⟩))
      ↔ ¬ (["cool", "groovy", "hip"] : List String).Perm
            (List.map Prod.fst
              [("cool", Val.bool true), ("hip", Val.bool false), ("groovy", Val.bool true)]))
    ∧ ((["cool", "groovy", "hip"] : List String).Perm
          (List.map Prod.fst
            [("cool", Val.bool true), ("hip", Val.bool false), ("groovy", Val.bool true)]) →
        from_box BUILTIN_TYPES (12 + 1) (.orderedMap .boolean)
          (some (.dict [("map", .dict [("cool", .bool true), ("hip", .bool false),
                                       ("groovy", .bool true)]),
                        ("order", .list [.str "cool", .str "groovy", .str "hip"])]))
          = (omBuild ["cool", "groovy", "hip"]
              [("cool", Val.bool true), ("hip", Val.bool false),
               ("groovy", Val.bool true)]).map Val.dict) :=
  claim_C7_orderedmap BUILTIN_TYPES 12 .boolean
    (.dict [("map", .dict [("cool", .bool true), ("hip", .bool false), ("groovy", .bool true)]),
            ("order", .list [.str "cool", .str "groovy", .str "hip"])])
    [("map", .dict [("cool", .bool true), ("hip", .bool false), ("groovy", .bool true)]),
     ("order", .list [.str "cool", .str "groovy", .str "hip"])]
    ["cool", "groovy", "hip"]
    [("cool", Val.bool true), ("hip", Val.bool false), ("groovy", Val.bool true)]
    (by rfl) (by rfl) (by rfl) (by decide)

/-- Claim C8. Every composite that catches a child's ValidationError
pushes its local location and re-raises: for each of Array, Map and
Struct, a child failing with ValidationError `e` makes the composite's
loop fail with exactly `e` plus the zero-based index / map key / field
name appended (nothing else changed), while an error arriving from
further along the iteration is re-raised untouched; rendering prints the
location pushed last — the one closest to the root — first; and on the
spec's example the full pipeline yields the stack `["bar", 0]` rendered
as `[0][u'bar']`. -/
theorem claim_C8_location_path :
    (∀ (reg : Reg) (n : Nat) (p : Sch) (x : Val) (rest : List Val) (i : Int) (e : VErr),
        from_box reg n p (some x) = .error (.verr e) →
        array_items reg (n + 1) p (x :: rest) i
          = .error (.verr ⟨e.message, e.stack ++ [.int i], e.obj, e.kind⟩))
    ∧ (∀ (reg : Reg) (n : Nat) (p : Sch) (x y : Val) (rest : List Val) (i : Int) (err : Err),
        from_box reg n p (some x) = .ok y →
        array_items reg n p rest (i + 1) = .error err →
        array_items reg (n + 1) p (x :: rest) i = .error err)
    ∧ (∀ (reg : Reg) (n : Nat) (p : Sch) (k : String) (x : Val)
          (rest : List (String × Val)) (e : VErr),
        from_box reg n p (some x) = .error (.verr e) →
        map_items reg (n + 1) p ((k, x) :: rest)
          = .error (.verr ⟨e.message, e.stack ++ [.str k], e.obj, e.kind⟩))
    ∧ (∀ (reg : Reg) (n : Nat) (p : Sch) (k : String) (x y : Val)
          (rest : List (String × Val)) (err : Err),
        from_box reg n p (some x) = .ok y →
        map_items reg n p rest = .error err →
        map_items reg (n + 1) p ((k, x) :: rest) = .error err)
    ∧ (∀ (reg : Reg) (n : Nat) (fname : String) (fsch : Sch) (rest : List (String × Sch))
          (boxes : List (String × Val)) (e : VErr),
        from_box reg n fsch (lookupV fname boxes) = .error (.verr e) →
        struct_fields reg (n + 1) ((fname, fsch) :: rest) boxes
          = .error (.verr ⟨e.message, e.stack ++ [.str fname], e.obj, e.kind⟩))
    ∧ (∀ (reg : Reg) (n : Nat) (fname : String) (fsch : Sch) (rest : List (String × Sch))
          (boxes : List (String × Val)) (r : Val) (err : Err),
        from_box reg n fsch (lookupV fname boxes) = .ok r →
        struct_fields reg n rest boxes = .error err →
        struct_fields reg (n + 1) ((fname, fsch) :: rest) boxes = .error err)
    ∧ (∀ (n : Nat) (m : String) (st : List Val) (l : Val) (o : Option Val) (k : EKind),
        errStr n ⟨m, st ++ [l], o, k⟩
          = "Item at " ++ ("[" ++ reprV n l ++ "]" ++ locString n st.reverse) ++ " " ++ m
              ++ (match o with
                  | none => ""
                  | some ov => ": " ++ reprV n ov))
    ∧ from_json BUILTIN_TYPES 9 (.array (.struct [("foo", .boolean), ("bar", .integer)]))
        (.list [.dict [("foo", .bool true), ("bar", .bool false)]])
      = .error (.verr ⟨"Invalid Integer", [.str "bar", .int 0], some (.bool false), .validation⟩)
    ∧ errStr 5 ⟨"Invalid Integer", [.str "bar", .int 0], some (.bool false), .validation⟩
      = "Item at [0][u\x27bar\x27] Invalid Integer: False" := by
  refine ⟨?_, ?_, ?_, ?_, ?_, ?_, ?_, rfl, rfl⟩
  · intro reg n p x rest i e h
    simp [array_items, h, pushLoc]
  · intro reg n p x y rest i err hok herr
    simp [array_items, hok, herr]
  · intro reg n p k x rest e h
    simp [map_items, h, pushLoc]
  · intro reg n p k x y rest err hok herr
    simp [map_items, hok, herr]
  · intro reg n fname fsch rest boxes e h
    simp [struct_fields, h, pushLoc]
  · intro reg n fname fsch rest boxes r err hok herr
    simp [struct_fields, hok, herr]
  · intro n m st l o k
    have hrev : (st ++ [l]).reverse = l :: st.reverse := by simp
    simp [errStr, hrev, locString]

/-- Witness for claim C8: each composite's push and pass-through conjunct
applied at a concrete failing child (so Array pushes the index 1, Map the
key "cool", Struct the field name "bar", and a deeper error passes each
loop unchanged), plus the rendering conjunct at the example's stack. -/
theorem claim_C8_location_path_witness :
    array_items BUILTIN_TYPES (2 + 1) .boolean [.int 5] 1
      = .error (.verr ⟨"Invalid Boolean", [] ++ [.int 1], some (.int 5), .validation⟩)
    ∧ array_items BUILTIN_TYPES (3 + 1) .boolean [.bool true, .int 5] 0
      = .error (.verr ⟨"Invalid Boolean", [.int 1], some (.int 5), .validation⟩)
    ∧ map_items BUILTIN_TYPES (2 + 1) .boolean [("cool", .int 5)]
      = .error (.verr ⟨"Invalid Boolean", [] ++ [.str "cool"], some (.int 5), .validation⟩)
    ∧ map_items BUILTIN_TYPES (3 + 1) .boolean [("hip", .bool true), ("cool", .int 5)]
      = .error (.verr ⟨"Invalid Boolean", [.str "cool"], some (.int 5), .validation⟩)
    ∧ struct_fields BUILTIN_TYPES (2 + 1) [("bar", .boolean)] [("foo", .bool true), ("bar", .int 5)]
      = .error (.verr ⟨"Invalid Boolean", [] ++ [.str "bar"], some (.int 5), .validation⟩)
    ∧ struct_fields BUILTIN_TYPES (3 + 1) [("foo", .boolean), ("bar", .boolean)]
        [("foo", .bool true), ("bar", .int 5)]
      = .error (.verr ⟨"Invalid Boolean", [.str "bar"], some (.int 5), .validation⟩)
    ∧ errStr 3 ⟨"Invalid Integer", [.str "bar"] ++ [.int 0], some (.bool false), .validation⟩
      = "Item at " ++ ("[" ++ reprV 3 (.int 0) ++ "]" ++ locString 3 [Val.str "bar"].reverse)
          ++ " " ++ "Invalid Integer"
          ++ (match (some (Val.bool false)) with
              | none => ""
              | some ov => ": " ++ reprV 3 ov) :=
  ⟨claim_C8_location_path.1 BUILTIN_TYPES 2 .boolean (.int 5) [] 1
      ⟨"Invalid Boolean", [], some (.int 5), .validation⟩ (by rfl),
   claim_C8_location_path.2.1 BUILTIN_TYPES 3 .boolean (.bool true) (.bool true) [.int 5] 0
      (.verr ⟨"Invalid Boolean", [.int 1], some (.int 5), .validation⟩) (by rfl) (by rfl),
   claim_C8_location_path.2.2.1 BUILTIN_TYPES 2 .boolean "cool" (.int 5) []
      ⟨"Invalid Boolean", [], some (.int 5), .validation⟩ (by rfl),
   claim_C8_location_path.2.2.2.1 BUILTIN_TYPES 3 .boolean "hip" (.bool true) (.bool true)
      [("cool", .int 5)]
      (.verr ⟨"Invalid Boolean", [.str "cool"], some (.int 5), .validation⟩) (by rfl) (by rfl),
   claim_C8_location_path.2.2.2.2.1 BUILTIN_TYPES 2 "bar" .boolean []
      [("foo", .bool true), ("bar", .int 5)]
      ⟨"Invalid Boolean", [], some (.int 5), .validation⟩ (by rfl),
   claim_C8_location_path.2.2.2.2.2.1 BUILTIN_TYPES 3 "foo" .boolean [("bar", .boolean)]
      [("foo", .bool true), ("bar", .int 5)] (.bool true)
      (.verr ⟨"Invalid Boolean", [.str "bar"], some (.int 5), .validation⟩) (by rfl) (by rfl),
   claim_C8_location_path.2.2.2.2.2.2.1 3 "Invalid Integer" [.str "bar"] (.int 0)
      (some (.bool false)) .validation⟩

/-- Claim C9. Scope entry and exit are symmetric: for any type map and
any scoped body that leaves the stack as it found it, the stack after
`with_type_map` equals the stack before entry — whether the body returned
a value or an error — and `_get_current_map` sees the same mapping. -/
theorem claim_C9_scope_symmetry {E A : Type} (tm : Reg) (st : List Reg)
    (body : List Reg → Except E A × List Reg)
    (h : (body (ctx_push tm st)).2 = ctx_push tm st) :
    (with_type_map tm body st).2 = st
    ∧ get_current_map (with_type_map tm body st).2 = get_current_map st := by
  have hs : (with_type_map tm body st).2 = ctx_pop (body (ctx_push tm st)).2 := rfl
  rw [hs, h]
  exact ⟨rfl, rfl⟩

/-- Witness for claim C9: a scope whose body raises an error still
restores the empty outer stack. -/
theorem claim_C9_scope_symmetry_witness :
    (with_type_map (fun _ => none)
        (fun s => ((Except.error 7 : Except Nat Nat), s)) ([] : List Reg)).2 = ([] : List Reg)
    ∧ get_current_map (with_type_map (fun _ => none)
        (fun s => ((Except.error 7 : Except Nat Nat), s)) ([] : List Reg)).2
      = get_current_map [] :=
  claim_C9_scope_symmetry (fun _ => none) []
    (fun s => ((Except.error 7 : Except Nat Nat), s)) rfl

/-- Claim C10. `Struct.from_json` omits a field whose deserialized value
is falsy (deserializing `{"foo": false}` against `Struct[foo: Boolean]`
yields a dict with no "foo" entry), treats an incoming JSON null exactly
like an absent field, and in general drops any single field whose
successfully deserialized value is falsy. -/
theorem claim_C10_falsy_omitted :
    (from_json BUILTIN_TYPES 9 (.struct [("foo", .boolean)]) (.dict [("foo", .bool false)])
      = .ok (.dict []))
    ∧ (∀ (reg : Reg) (n : Nat) (fs : List (String × Sch))
          (l1 l2 : List (String × Val)) (k : String),
        from_json reg n (.struct fs) (.dict (l1 ++ (k, .null) :: l2))
          = from_json reg n (.struct fs) (.dict (l1 ++ l2)))
    ∧ (∀ (reg : Reg) (m : Nat) (k : String) (s : Sch) (v r : Val),
        isNull v = false → from_box reg m s (some v) = .ok r → truthy r = false →
        from_json reg (m + 2) (.struct [(k, s)]) (.dict [(k, v)]) = .ok (.dict [])) :=
  ⟨rfl, struct_null_entry_dropped, struct_falsy_field_dropped⟩

/-- Witness for claim C10: the null-as-absent equation and the general
falsy-dropping statement applied at concrete inputs. -/
theorem claim_C10_falsy_omitted_witness :
    (from_json BUILTIN_TYPES 9 (.struct [("foo", .boolean)]) (.dict ([] ++ ("baz", .null) :: []))
      = from_json BUILTIN_TYPES 9 (.struct [("foo", .boolean)]) (.dict ([] ++ [])))
    ∧ from_json BUILTIN_TYPES (3 + 2) (.struct [("bar", .boolean)]) (.dict [("bar", .bool false)])
      = .ok (.dict []) :=
  ⟨claim_C10_falsy_omitted.2.1 BUILTIN_TYPES 9 [("foo", .boolean)] [] [] "baz",
   claim_C10_falsy_omitted.2.2 BUILTIN_TYPES 3 "bar" .boolean (.bool false) (.bool false)
     (by rfl) (by rfl) (by rfl)⟩

end Teleport
